import Mathlib

/-!
Verification of the `daemon` package (process-lifecycle coordinator).

The development shallowly embeds the Go source of `daemon.go` / `defaults.go`:

* the shutdown sequencer `runWithMutex` and the shutdown body `shutDown`,
  with callbacks modelled as labelled steps that consume abstract time and a
  shutdown-scope context modelled by the time from which `ctx.Err()` is
  non-nil;
* the predefined marker callback `CancelCTX`, together with the
  context-value lookup it performs under the package's context key;
* the callback registry with its two registration disciplines
  (`OnShutDown` from the source; `Defer` modelled from the spec, its
  implementation being absent from the sources at hand);
* the two watcher goroutines (primary multiplexer loop and parent-watch
  loop), the one-shot latch `shutDownOnce` and the asynchronous shutdown
  body, as a transition system `step` over interleavings of atomic events;
* `Start` with its option folding and Go channel construction, where a
  negative channel capacity faithfully produces the runtime panic of
  `make(chan T, n)` as an `Except.error`.
-/

namespace GoDaemon

/-- Result of `ctx.Value(daemonCTXKey)` followed by the type assertion in
`CancelCTX`: the key may be absent, may hold the `*Daemon` back-reference, or
may hold a value of some other type. -/
inductive KeyVal : Type
| absent : KeyVal
| daemon : KeyVal
| nonDaemon : KeyVal
deriving DecidableEq

/-- Embedding of the package-level callback `CancelCTX` (daemon.go:18-23):
it reads the value stored under `daemonCTXKey`, and only when the type
assertion to `*Daemon` succeeds does it call `d.ctxCancel()`.  The daemon's
exposed-context cancellation flag is passed and returned explicitly; the
function is total, so no input can make it panic. -/
def CancelCTX : KeyVal → Bool → Bool
| KeyVal.daemon, _ => true
| _, c => c

/-- A registered shutdown callback.  `user label dur` is an ordinary
callback: it is observable through its label and runs for `dur` abstract
time units.  `cancelCTX` is the predefined marker callback `CancelCTX`. -/
inductive CB (α : Type) : Type
| user (label : α) (dur : Nat) : CB α
| cancelCTX : CB α
deriving DecidableEq

/-- State threaded through one run of the shutdown sequencer: elapsed time
since the sequence started, whether the daemon's exposed context (`o.ctx`)
has been canceled, and the trace of user callbacks invoked so far, each
paired with the value of the exposed-context cancellation flag at the moment
it was invoked. -/
structure RunState (α : Type) : Type where
  time : Nat
  exposedCanceled : Bool
  trace : List (α × Bool)
deriving DecidableEq

/-- The sequencer's state when `shutDown` begins: no time elapsed, exposed
context not yet canceled, no callback invoked. -/
def initRun {α : Type} : RunState α := ⟨0, false, []⟩

/-- Effect of invoking one callback.  `kv` is what the callback finds under
`daemonCTXKey` in the context it receives (inside `shutDown` this is the
`*Daemon` itself, placed there by `context.WithValue` at daemon.go:114).
A user callback records its invocation and advances time by its duration; the
marker callback runs `CancelCTX`. -/
def exec {α : Type} (kv : KeyVal) : CB α → RunState α → RunState α
| CB.user l d, s =>
    { s with time := s.time + d, trace := s.trace ++ [(l, s.exposedCanceled)] }
| CB.cancelCTX, s =>
    { s with exposedCanceled := CancelCTX kv s.exposedCanceled }

/-- Embedding of `runWithMutex` (daemon.go:238-247).  `isDone t` tells
whether the shutdown-scope context's `Err()` is non-nil once `t` time units
have elapsed.  Exactly as in the source, each callback is invoked first and
`ctx.Err()` is checked afterwards: `for _, f := range fns { f(ctx); if
ctx.Err() != nil { return } }`. -/
def runWithMutex {α : Type} (kv : KeyVal) (isDone : Nat → Bool) :
    List (CB α) → RunState α → RunState α
| [], s => s
| f :: fs, s =>
    let s1 := exec kv f s
    if isDone s1.time then s1 else runWithMutex kv isDone fs s1

/-- Unconditional execution of a callback list, with no context check; used
to characterise which callbacks `runWithMutex` actually invoked. -/
def runAll {α : Type} (kv : KeyVal) : List (CB α) → RunState α → RunState α
| [], s => s
| f :: fs, s => runAll kv fs (exec kv f s)

/-- Variant written from the specification's words, for comparison only:
"Before each callback, check whether the shutdown-scope context is already
done; if so, stop executing further callbacks."  The check precedes every
invocation, including the first. -/
def runSpecCheckBefore {α : Type} (kv : KeyVal) (isDone : Nat → Bool) :
    List (CB α) → RunState α → RunState α
| [], s => s
| f :: fs, s =>
    if isDone s.time then s else runSpecCheckBefore kv isDone fs (exec kv f s)

/-- Embedding of `OnShutDown` (daemon.go:105-109): append the new callbacks
after all previously registered ones (`o.onShutDown = append(o.onShutDown,
f...)`). -/
def OnShutDown {α : Type} (reg : List (CB α)) (fs : List (CB α)) : List (CB α) :=
  reg ++ fs

/-- Modelled from the spec: the implementation of `Defer` (stack-order
registration) is absent from the sources at hand; only its tests and callers
are present.  Per the spec, "new callbacks are inserted before all previously
registered callbacks; within one registration call the callbacks are inserted
in reverse of the order passed (so the last argument of a call executes
first), and a later registration call's callbacks as a whole precede an
earlier call's callbacks". -/
def Defer {α : Type} (reg : List (CB α)) (fs : List (CB α)) : List (CB α) :=
  fs.reverse ++ reg

/-- Doneness of the shutdown-scope context as a function of elapsed time
`t`: the context built in `shutDown` (daemon.go:114-123) is the parent
context (done from `parentDoneFrom` onward, if ever) wrapped — when the
configured `shutdownTimeout` is positive — with a deadline of `shutdownTimeout`
time units. -/
def scopeDone (timeout : Int) (parentDoneFrom : Option Nat) (t : Nat) : Bool :=
  (match parentDoneFrom with
   | some p => decide (p ≤ t)
   | none => false)
  || (decide (0 < timeout) && decide (timeout ≤ (t : Int)))

/-- Observable outcome of one run of the shutdown body `shutDown`
(daemon.go:111-131): the sequencer's final state, whether the exposed context
is canceled afterwards, and whether the completion channel `done` has been
closed. -/
structure ShutDownResult (α : Type) : Type where
  run : RunState α
  exposedCanceled : Bool
  doneClosed : Bool
deriving DecidableEq

/-- Embedding of the shutdown body `shutDown` (daemon.go:111-131): build the
shutdown-scope context carrying the `*Daemon` under `daemonCTXKey`, run all
registered callbacks through `runWithMutex` (with the deadline attached
exactly when `shutdownTimeout > 0`, which `scopeDone` reflects), then
unconditionally call `o.ctxCancel()` (idempotent, hence `exposedCanceled`
ends up `true` whether or not the marker already canceled it) and
`close(o.done)`. -/
def shutDown {α : Type} (timeout : Int) (parentDoneFrom : Option Nat)
    (fns : List (CB α)) : ShutDownResult α :=
  let s := runWithMutex KeyVal.daemon (scopeDone timeout parentDoneFrom) fns initRun
  { run := s, exposedCanceled := true, doneClosed := true }

/- Helper lemmas about the sequencer. -/

theorem runWithMutex_of_never_done {α : Type} (kv : KeyVal) (isDone : Nat → Bool)
    (h : ∀ t, isDone t = false) :
    ∀ (fns : List (CB α)) (s : RunState α),
      runWithMutex kv isDone fns s = runAll kv fns s := by
  intro fns
  induction fns with
  | nil => intro s; rfl
  | cons f fs ih =>
      intro s
      simp only [runWithMutex, runAll, h, if_false]
      exact ih (exec kv f s)

theorem scopeDone_zero_none (t : Nat) : scopeDone 0 none t = false := by
  simp [scopeDone]

theorem runAll_trace_labels {α : Type} (kv : KeyVal) :
    ∀ (fns : List (CB α)) (s : RunState α),
      (runAll kv fns s).trace.map Prod.fst
        = s.trace.map Prod.fst
          ++ (fns.filterMap (fun f => match f with
                | CB.user l _ => some l
                | CB.cancelCTX => none)) := by
  intro fns
  induction fns with
  | nil => intro s; simp [runAll]
  | cons f fs ih =>
      intro s
      cases f with
      | user l d => simp [runAll, exec, ih]
      | cancelCTX => simp [runAll, exec, ih]

/-- Claim C7: for every two append-order (`OnShutDown`) registration calls,
the first passing callbacks `[a, b]` and the second passing `[c, d]`, the
executed order of the registry is `a, b, c, d`: callbacks run in the order
passed within a single call and in first-registered-first-executed order
across calls (shown for a shutdown-scope context that never becomes done, so
every callback is reached). -/
theorem OnShutDown_append_order (a b c d da db dc dd : Nat) :
    ((runWithMutex KeyVal.daemon (fun _ => false)
        (OnShutDown (OnShutDown [] [CB.user a da, CB.user b db])
          [CB.user c dc, CB.user d dd])
        initRun).trace).map Prod.fst = [a, b, c, d] := by
  rw [runWithMutex_of_never_done KeyVal.daemon _ (fun _ => rfl)]
  simp [OnShutDown, runAll_trace_labels, initRun]

/-- Claim C4: for every two stack-order (`Defer`) registration calls, the
first passing callbacks `[a, b, c]` and the second passing `[d, e]`, the
executed order of the registry is `e, d, c, b, a`: within one call the
callbacks run in reverse of the order passed, and a later call's callbacks as
a whole run before an earlier call's callbacks (shown for a shutdown-scope
context that never becomes done, so every callback is reached).  `Defer` is
modelled from the spec, its implementation being absent from the sources. -/
theorem Defer_stack_order (a b c d e da db dc dd d5 : Nat) :
    ((runWithMutex KeyVal.daemon (fun _ => false)
        (Defer (Defer [] [CB.user a da, CB.user b db, CB.user c dc])
          [CB.user d dd, CB.user e d5])
        initRun).trace).map Prod.fst = [e, d, c, b, a] := by
  rw [runWithMutex_of_never_done KeyVal.daemon _ (fun _ => rfl)]
  simp [Defer, runAll_trace_labels, initRun]

/-- Claim C2 counterexample: the code checks the shutdown-scope context
AFTER each callback, not before it.  With the parent context already done
when the sequence starts (`parentDoneFrom = some 0`, stop condition C) and a
single registered callback, `shutDown` still invokes that callback (its
trace is `[(0, false)]`), whereas the claim's check-before discipline — the
spec-side `runSpecCheckBefore` — skips it (empty trace).  So the claim that
a check precedes every callback, skipping it when the context is already
done, is false on the code. -/
theorem runWithMutex_precheck_counterexample :
    (shutDown 0 (some 0) [CB.user 0 5]).run.trace = [(0, false)]
  ∧ (runSpecCheckBefore KeyVal.daemon (scopeDone 0 (some 0)) [CB.user 0 5]
      (initRun (α := Nat))).trace = [] := by
  decide

/-- Claim C2 as amended: the sequencer checks the shutdown-scope context
after each callback (equivalently: before every callback except the first,
which is always invoked).  Precisely: `runWithMutex` executes exactly a
leading portion `fns.take k` of the registry; if any callback was skipped
(`k < fns.length`) the context was done at the point the skipping began;
every executed callback other than the first began with the context not yet
done (so every callback that ran before the context became done did
execute); and when the registry is non-empty the first callback runs
unconditionally. -/
theorem runWithMutex_postcheck {α : Type} (kv : KeyVal) (isDone : Nat → Bool) :
    ∀ (fns : List (CB α)) (s : RunState α),
      ∃ k, k ≤ fns.length
        ∧ runWithMutex kv isDone fns s = runAll kv (fns.take k) s
        ∧ (fns ≠ [] → 1 ≤ k)
        ∧ (k < fns.length → isDone (runAll kv (fns.take k) s).time = true)
        ∧ (∀ i, 1 ≤ i → i < k → isDone (runAll kv (fns.take i) s).time = false) := by
  intro fns
  induction fns with
  | nil =>
      intro s
      refine ⟨0, le_refl 0, rfl, ?_, ?_, ?_⟩
      · intro h; exact absurd rfl h
      · intro h; exact absurd h (by simp)
      · intro i h1 h2; omega
  | cons f fs ih =>
      intro s
      by_cases h : isDone (exec kv f s).time = true
      · refine ⟨1, ?_, ?_, fun _ => le_refl 1, ?_, ?_⟩
        · simp
        · simp [runWithMutex, runAll, h]
        · intro _
          simpa [runAll] using h
        · intro i h1 h2; omega
      · obtain ⟨k, hk, heq, _, hstop, hmid⟩ := ih (exec kv f s)
        have hfalse : isDone (exec kv f s).time = false := by
          cases hb : isDone (exec kv f s).time
          · rfl
          · exact absurd hb h
        refine ⟨k + 1, by simpa using Nat.succ_le_succ hk, ?_, fun _ => by omega, ?_, ?_⟩
        · calc runWithMutex kv isDone (f :: fs) s
              = runWithMutex kv isDone fs (exec kv f s) := by
                simp [runWithMutex, hfalse]
            _ = runAll kv (fs.take k) (exec kv f s) := heq
            _ = runAll kv ((f :: fs).take (k + 1)) s := by
                simp [List.take_succ_cons, runAll]
        · intro hlt
          have hk2 : k < fs.length := by simpa using hlt
          simpa [List.take_succ_cons, runAll] using hstop hk2
        · intro i h1 h2
          match i, h1 with
          | 1, _ =>
              simpa [List.take_succ_cons, runAll] using hfalse
          | (j + 2), _ =>
              have := hmid (j + 1) (by omega) (by omega)
              simpa [List.take_succ_cons, runAll] using this

/-- Claim C6 counterexample: passing the sequence `[before, CancelCTX,
after]` to the stack-order discipline (`Defer`) reverses it, so the callback
passed third (`after`, label `1`) executes FIRST, while the exposed context
is still uncanceled — its trace entry is `(1, false)` — contradicting the
claim that in either registration discipline the exposed context is already
canceled at the moment `after` executes. -/
theorem CancelCTX_defer_counterexample :
    (shutDown 0 none (Defer [] [CB.user 0 0, CB.cancelCTX, CB.user 1 0])).run.trace
      = [(1, false), (0, true)]
  ∧ ((1, false) ∈
      (shutDown 0 none (Defer [] [CB.user 0 0, CB.cancelCTX, CB.user 1 0])).run.trace) := by
  decide

/-- Claim C6 as amended: whenever the registry order is `[before, CancelCTX,
after]` — as produced by the append-order call `OnShutDown(before,
CancelCTX, after)`, or by the stack-order call `Defer(after, CancelCTX,
before)` — the exposed long-lived context is not yet canceled at the moment
`before` executes and is already canceled at the moment `after` executes:
the marker callback, when reached, cancels the core's derived context at its
position in the sequence.  (Passing `[before, CancelCTX, after]` to `Defer`
instead reverses the execution order, see the counterexample.) -/
theorem CancelCTX_marker_law (b a db da : Nat) :
    (shutDown 0 none (OnShutDown [] [CB.user b db, CB.cancelCTX, CB.user a da])).run.trace
      = [(b, false), (a, true)]
  ∧ (shutDown 0 none (Defer [] [CB.user a da, CB.cancelCTX, CB.user b db])).run.trace
      = [(b, false), (a, true)] := by
  constructor <;>
  · show (runWithMutex _ _ _ _).trace = _
    rw [runWithMutex_of_never_done _ _ scopeDone_zero_none]
    simp [OnShutDown, Defer, runAll, exec, CancelCTX, initRun]

/-- Claim C10: invoking the predefined `CancelCTX` callback with any context
that does not carry the daemon back-reference under the package's context
key is a safe no-op: it cancels nothing (the cancellation flag is returned
unchanged for an absent key and for a value of any other type) and, being a
total function, cannot panic; it cancels the daemon's exposed context exactly
when the value at the daemon key is a `*Daemon`. -/
theorem CancelCTX_safe_noop (c : Bool) :
    CancelCTX KeyVal.absent c = c
  ∧ CancelCTX KeyVal.nonDaemon c = c
  ∧ CancelCTX KeyVal.daemon c = true := by
  exact ⟨rfl, rfl, rfl⟩

/- Transition-system model of the running daemon (daemon.go:134-197):
the primary multiplexer loop, the parent-watch loop, the one-shot latch
`shutDownOnce`, and the asynchronously spawned shutdown body.  Concurrency is
modelled as interleavings: a run is a list of atomic events folded over the
state. -/

/-- `defaultImmediateTerminationExitCode` (defaults.go:13): the fixed exit
code passed to the termination primitive on signal-count escalation. -/
def defaultImmediateTerminationExitCode : Int := 2

/-- Atomic events of the running daemon.  `signal` / `fatalError` are the
primary loop receiving from `signalCh` / `fatalErrorsCh`; `parentCancel` is
the parent-watch loop observing the parent context done; `callShutDown` is an
explicit `ShutDown()` call from any goroutine; the two `doneObserved` events
are the watcher loops selecting on the closed `done` channel and returning;
`runShutdownBody` is the scheduler running the goroutine spawned by
`shutDownOnce.Do(func() { go o.shutDown() })`. -/
inductive Ev : Type
| signal : Ev
| fatalError : Ev
| parentCancel : Ev
| callShutDown : Ev
| doneObservedPrimary : Ev
| doneObservedParentWatch : Ev
| runShutdownBody : Ev
deriving DecidableEq

/-- Observable state of a running daemon: the per-run signal counter of the
primary loop, the one-shot latch, whether the shutdown body has run, whether
the exposed context is canceled, whether `done` is closed, whether the
termination primitive has been invoked (and with which code), whether each
watcher loop has returned, how many fatal errors were logged, and how many
times the shutdown body has executed. -/
structure DState : Type where
  sigReceived : Int
  shutDownLatch : Bool
  shutdownRun : Bool
  ctxCanceled : Bool
  doneClosed : Bool
  exited : Bool
  exitCode : Option Int
  primaryStopped : Bool
  parentWatchStopped : Bool
  fatalLogged : Nat
  bodyRunCount : Nat
deriving DecidableEq

/-- State right after `Start` returns: counters zero, latch unset, nothing
canceled or closed, both watcher loops running. -/
def initD : DState :=
  { sigReceived := 0, shutDownLatch := false, shutdownRun := false,
    ctxCanceled := false, doneClosed := false, exited := false,
    exitCode := none, primaryStopped := false, parentWatchStopped := false,
    fatalLogged := 0, bodyRunCount := 0 }

/-- `o.ShutDown()` (daemon.go:134-138): `shutDownOnce.Do` fires the latch on
the first call and is a no-op afterwards; the shutdown body itself runs
asynchronously (event `runShutdownBody`), so the call returns immediately. -/
def trigger (s : DState) : DState :=
  if s.shutDownLatch then s else { s with shutDownLatch := true }

/-- One atomic event of the running daemon, for escalation threshold `m`
(`config.maxSignalCount`).  A terminated process (`exited`) takes no further
steps.  The `signal` branch mirrors daemon.go:154-161: increment the
counter, then `if maxSignalCount > 0 && sigReceived >= maxSignalCount`
invoke the termination primitive with exit code 2 (which never returns),
otherwise fall through to `o.ShutDown()`.  The `fatalError` branch mirrors
daemon.go:164-166 (log, then `o.ShutDown()`).  The watcher loops return
only once `done` is closed. -/
def step (m : Int) (s : DState) (e : Ev) : DState :=
  if s.exited then s else
  match e with
  | Ev.signal =>
      if s.primaryStopped then s else
      let c := s.sigReceived + 1
      if 0 < m ∧ m ≤ c then
        { s with sigReceived := c, exited := true,
                 exitCode := some defaultImmediateTerminationExitCode }
      else trigger { s with sigReceived := c }
  | Ev.fatalError =>
      if s.primaryStopped then s
      else trigger { s with fatalLogged := s.fatalLogged + 1 }
  | Ev.parentCancel =>
      if s.parentWatchStopped then s
      else trigger { s with parentWatchStopped := true }
  | Ev.callShutDown => trigger s
  | Ev.doneObservedPrimary =>
      if s.doneClosed then { s with primaryStopped := true } else s
  | Ev.doneObservedParentWatch =>
      if s.doneClosed then { s with parentWatchStopped := true } else s
  | Ev.runShutdownBody =>
      if s.shutDownLatch ∧ ¬ s.shutdownRun then
        { s with shutdownRun := true, ctxCanceled := true, doneClosed := true,
                 bodyRunCount := s.bodyRunCount + 1 }
      else s

/-- A run of the daemon: fold an interleaving of events over the start
state. -/
def runD (m : Int) (t : List Ev) : DState := t.foldl (step m) initD

/-- Invariant bundle preserved by every event: the body-run counter matches
the one-shot flag; `done` is closed exactly when the body has run; in this
event model the exposed context is canceled exactly when the body has run
(the body cancels it unconditionally); and the primary loop only ever
returns after `done` is closed. -/
def Inv (s : DState) : Prop :=
  s.bodyRunCount = (if s.shutdownRun = true then 1 else 0)
  ∧ s.doneClosed = s.shutdownRun
  ∧ s.ctxCanceled = s.shutdownRun
  ∧ (s.primaryStopped = true → s.doneClosed = true)

theorem inv_init : Inv initD := by
  refine ⟨rfl, rfl, rfl, ?_⟩
  intro h
  exact absurd h (by decide)

theorem trigger_eq (s : DState) : trigger s = { s with shutDownLatch := true } := by
  unfold trigger
  split
  · next h => cases s; simp_all
  · rfl

theorem inv_step (m : Int) (s : DState) (e : Ev) (h : Inv s) : Inv (step m s e) := by
  obtain ⟨h1, h2, h3, h4⟩ := h
  by_cases hex : s.exited = true
  · have : step m s e = s := by
      unfold step
      simp [hex]
    rw [this]
    exact ⟨h1, h2, h3, h4⟩
  · have hex' : s.exited = false := by
      cases hb : s.exited
      · rfl
      · exact absurd hb hex
    cases e <;>
      simp only [step, hex', Bool.false_eq_true, if_false, trigger_eq] <;>
      (try split_ifs) <;>
      simp_all [Inv]

theorem inv_runD (m : Int) (t : List Ev) : Inv (runD m t) := by
  suffices h : ∀ (l : List Ev) (s : DState), Inv s → Inv (l.foldl (step m) s) by
    exact h t initD inv_init
  intro l
  induction l with
  | nil => intro s hs; exact hs
  | cons e l ih => intro s hs; exact ih (step m s e) (inv_step m s e hs)

theorem runD_append_one (m : Int) (t : List Ev) (e : Ev) :
    runD m (t ++ [e]) = step m (runD m t) e := by
  simp [runD, List.foldl_append]

/-- Claim C1: under every interleaving of stop triggers — explicit
`ShutDown()` calls, sub-threshold OS signals, fatal errors, parent-context
cancellation, from any number of concurrent callers — the shutdown sequence
body runs exactly once: at most once along any run, and exactly once as soon
as the scheduler runs the goroutine spawned by the first trigger; moreover a
`ShutDown()` call itself never runs the body synchronously (it only fires
the latch and returns — the `step` function is total, so every call
returns without blocking). -/
theorem shutDown_body_exactly_once (m : Int) (t : List Ev) :
    (runD m t).bodyRunCount ≤ 1
  ∧ ((runD m t).shutDownLatch = true → (runD m t).exited = false →
        (runD m (t ++ [Ev.runShutdownBody])).bodyRunCount = 1)
  ∧ (runD m (t ++ [Ev.callShutDown])).bodyRunCount = (runD m t).bodyRunCount := by
  obtain ⟨h1, h2, h3, h4⟩ := inv_runD m t
  refine ⟨?_, ?_, ?_⟩
  · rw [h1]
    split <;> omega
  · intro hl hex
    rw [runD_append_one]
    by_cases hr : (runD m t).shutdownRun = true
    · have hb : (runD m t).bodyRunCount = 1 := by
        rw [h1, if_pos hr]
      simp [step, hex, hr, hb]
    · have hr' : (runD m t).shutdownRun = false := by
        cases hb : (runD m t).shutdownRun
        · rfl
        · exact absurd hb hr
      have hb : (runD m t).bodyRunCount = 0 := by
        rw [h1, hr']
        rfl
      simp [step, hex, hl, hr', hb]
  · rw [runD_append_one]
    by_cases hex : (runD m t).exited = true
    · simp [step, hex]
    · have hex' : (runD m t).exited = false := by
        cases hb : (runD m t).exited
        · rfl
        · exact absurd hb hex
      simp only [step, hex', Bool.false_eq_true, if_false, trigger_eq]

/-- Claim C1 witness: a single explicit `ShutDown()` call fires the latch,
and the scheduled body then runs exactly once. -/
theorem shutDown_body_exactly_once_witness :
    (runD 0 [Ev.callShutDown]).bodyRunCount ≤ 1
  ∧ (runD 0 ([Ev.callShutDown] ++ [Ev.runShutdownBody])).bodyRunCount = 1 :=
  ⟨(shutDown_body_exactly_once 0 [Ev.callShutDown]).1,
   (shutDown_body_exactly_once 0 [Ev.callShutDown]).2.1 (by decide) (by decide)⟩

/-- Claim C5: the completion signal is closed exactly when the shutdown
sequence has run (in particular it is never closed on any other path), and
whenever it is closed the exposed context has been canceled; and the body
`shutDown` itself, however its callback loop ends (normally or cut short by
the deadline), unconditionally cancels the exposed context (idempotently,
even if the marker already canceled it) and closes the completion signal.
That it is closed at most once follows from the one-shot latch (claim C1). -/
theorem done_closed_iff_sequence_run (m : Int) (t : List Ev) (timeout : Int)
    (pd : Option Nat) (fns : List (CB Nat)) :
    (runD m t).doneClosed = (runD m t).shutdownRun
  ∧ (runD m t).ctxCanceled = (runD m t).shutdownRun
  ∧ (shutDown timeout pd fns).exposedCanceled = true
  ∧ (shutDown timeout pd fns).doneClosed = true := by
  obtain ⟨h1, h2, h3, h4⟩ := inv_runD m t
  exact ⟨h2, h3, rfl, rfl⟩

/-- Claim C9: until the completion signal closes, the primary multiplexer
loop has not returned (it returns only after observing `done` closed), so it
is always again ready to receive from both the signal channel and the
fatal-error channel; while it runs, a received fatal error is logged and
fires the shutdown latch, and a received signal is consumed (the counter
advances), so producers are never left without a consumer. -/
theorem primary_loop_always_ready (m : Int) (t : List Ev) :
    ((runD m t).doneClosed = false → (runD m t).primaryStopped = false)
  ∧ ((runD m t).primaryStopped = false → (runD m t).exited = false →
        (runD m (t ++ [Ev.fatalError])).fatalLogged = (runD m t).fatalLogged + 1
      ∧ (runD m (t ++ [Ev.fatalError])).shutDownLatch = true
      ∧ (runD m (t ++ [Ev.signal])).sigReceived = (runD m t).sigReceived + 1) := by
  obtain ⟨h1, h2, h3, h4⟩ := inv_runD m t
  constructor
  · intro hd
    cases hp : (runD m t).primaryStopped
    · rfl
    · rw [h4 hp] at hd
      exact absurd hd (by decide)
  · intro hp hex
    refine ⟨?_, ?_, ?_⟩
    · rw [runD_append_one]
      simp only [step, hex, Bool.false_eq_true, if_false, hp, trigger_eq]
    · rw [runD_append_one]
      simp only [step, hex, Bool.false_eq_true, if_false, hp, trigger_eq]
    · rw [runD_append_one]
      simp only [step, hex, Bool.false_eq_true, if_false, hp]
      split <;> simp [trigger_eq]

/-- Claim C9 witness: from the start state the primary loop is running, and
a fatal error is received, logged, and fires the latch. -/
theorem primary_loop_always_ready_witness :
    (runD 0 ([] ++ [Ev.fatalError])).fatalLogged = (runD 0 []).fatalLogged + 1
  ∧ (runD 0 ([] ++ [Ev.fatalError])).shutDownLatch = true :=
  ⟨((primary_loop_always_ready 0 []).2 (by decide) (by decide)).1,
   ((primary_loop_always_ready 0 []).2 (by decide) (by decide)).2.1⟩

theorem runD_nonpos_no_exit (m : Int) (hm : m ≤ 0) (t : List Ev) :
    (runD m t).exited = false ∧ (runD m t).exitCode = none := by
  suffices h : ∀ (l : List Ev) (s : DState),
      s.exited = false → s.exitCode = none →
      (l.foldl (step m) s).exited = false ∧ (l.foldl (step m) s).exitCode = none by
    exact h t initD rfl rfl
  intro l
  induction l with
  | nil => intro s h1 h2; exact ⟨h1, h2⟩
  | cons e l ih =>
      intro s h1 h2
      apply ih
      · cases e <;>
          simp only [step, h1, Bool.false_eq_true, if_false, trigger_eq] <;>
          (try split_ifs) <;>
          simp_all <;>
          omega
      · cases e <;>
          simp only [step, h1, Bool.false_eq_true, if_false, trigger_eq] <;>
          (try split_ifs) <;>
          simp_all <;>
          omega

theorem runD_signal_closed (m : Int) (hm : 0 < m) (n : Nat) :
    runD m (List.replicate n Ev.signal) =
      if m ≤ (n : Int) then
        { initD with sigReceived := m, shutDownLatch := decide (2 ≤ m),
                     exited := true,
                     exitCode := some defaultImmediateTerminationExitCode }
      else
        { initD with sigReceived := (n : Int), shutDownLatch := decide (1 ≤ n) } := by
  induction n with
  | zero =>
      have h0 : ¬ (m ≤ ((0 : Nat) : Int)) := by
        simp only [Nat.cast_zero]
        omega
      rw [if_neg h0]
      simp [runD, initD, List.replicate]
  | succ n ih =>
      have hstep : runD m (List.replicate (n + 1) Ev.signal)
          = step m (runD m (List.replicate n Ev.signal)) Ev.signal := by
        rw [List.replicate_succ', runD_append_one]
      rw [hstep, ih]
      by_cases h : m ≤ (n : Int)
      · rw [if_pos h]
        rw [if_pos (by omega : m ≤ ((n + 1 : Nat) : Int))]
        simp [step]
      · rw [if_neg h]
        by_cases h2 : m ≤ (n : Int) + 1
        · have hm1 : m = (n : Int) + 1 := by omega
          rw [if_pos (by omega : m ≤ ((n + 1 : Nat) : Int))]
          have hlatch : decide (1 ≤ n) = decide (2 ≤ m) := by
            rw [decide_eq_decide]
            omega
          simp only [step, initD, Bool.false_eq_true, if_false]
          rw [if_pos ⟨hm, by simpa using h2⟩]
          simp [hm1, hlatch]
        · rw [if_neg (by omega : ¬ m ≤ ((n + 1 : Nat) : Int))]
          simp only [step, initD, Bool.false_eq_true, if_false]
          rw [if_neg (by omega : ¬ (0 < m ∧ m ≤ (n : Int) + 1))]
          rw [trigger_eq]
          have hl : decide (1 ≤ n + 1) = true := by simp
          simp [hl]

/-- Claim C3: for every configured escalation threshold `m`: if `m > 0`,
each received OS signal increments the per-run counter (it ends at
`min m n` after `n` signals, the process having terminated at the `m`-th),
and the termination primitive is invoked with the fixed exit code 2 exactly
when the counter reaches `m`, bypassing the graceful sequence (the latch was
fired only by the sub-threshold signals, so it is set exactly when some
signal below the threshold arrived); if `m = 0`, the termination primitive
is never invoked on any event interleaving and every signal takes the
graceful-shutdown path (it fires the latch and increments the counter). -/
theorem signal_escalation_policy (m : Int) (n : Nat) (t : List Ev) :
    (0 < m →
        ((runD m (List.replicate n Ev.signal)).exited = true ↔ m ≤ (n : Int))
      ∧ ((runD m (List.replicate n Ev.signal)).exitCode
            = if m ≤ (n : Int) then some defaultImmediateTerminationExitCode else none)
      ∧ ((runD m (List.replicate n Ev.signal)).sigReceived = min m (n : Int))
      ∧ ((runD m (List.replicate n Ev.signal)).shutDownLatch = true
            ↔ (1 ≤ n ∧ 2 ≤ m)))
  ∧ (m = 0 →
        (runD m t).exited = false
      ∧ (runD m t).exitCode = none
      ∧ ((runD m t).primaryStopped = false →
            (runD m (t ++ [Ev.signal])).shutDownLatch = true
          ∧ (runD m (t ++ [Ev.signal])).sigReceived = (runD m t).sigReceived + 1
          ∧ (runD m (t ++ [Ev.signal])).exited = false)) := by
  constructor
  · intro hm
    rw [runD_signal_closed m hm n]
    by_cases h : m ≤ (n : Int)
    · rw [if_pos h, if_pos h]
      refine ⟨by simp [h], rfl, ?_, ?_⟩
      · rw [min_eq_left h]
      · simp only [decide_eq_true_eq]
        constructor
        · intro h2
          exact ⟨by omega, h2⟩
        · intro h2
          exact h2.2
    · rw [if_neg h, if_neg h]
      refine ⟨?_, rfl, ?_, ?_⟩
      · simp only [initD, Bool.false_eq_true, false_iff]
        exact h
      · rw [min_eq_right (by omega : (n : Int) ≤ m)]
      · simp only [initD, decide_eq_true_eq]
        omega
  · intro hm
    obtain ⟨h1, h2⟩ := runD_nonpos_no_exit m (by omega) t
    refine ⟨h1, h2, ?_⟩
    intro hp
    rw [runD_append_one]
    simp only [step, h1, Bool.false_eq_true, if_false, hp]
    rw [if_neg (by omega)]
    rw [trigger_eq]
    simp [h1]

/-- Claim C3 witness: with threshold 2, the second signal terminates the
process with exit code 2; with threshold 0, signals never terminate it. -/
theorem signal_escalation_policy_witness :
    (runD 2 (List.replicate 2 Ev.signal)).exited = true
  ∧ (runD 0 (List.replicate 3 Ev.signal)).exited = false := by
  constructor
  · exact ((signal_escalation_policy 2 2 []).1 (by decide)).1.mpr (by decide)
  · exact ((signal_escalation_policy 0 3 (List.replicate 3 Ev.signal)).2 rfl).1

/- Construction: `Start` (daemon.go:65-101), the configuration defaults
(defaults.go, defaults_linux.go) and the option functions
(daemon.go:199-236).  Go channel creation `make(chan T, n)` panics at
runtime when `n < 0` ("makechan: size out of range"); the panic is embedded
as an `Except.error`. -/

/-- `defaultSignals` (defaults_linux.go): SIGINT (os.Interrupt), SIGQUIT,
SIGABRT, SIGTERM, by signal number. -/
def defaultSignals : List Int := [2, 3, 6, 15]

def defaultMaxSignalCount : Int := 0

def defaultFatalErrorsChannelBufferSize : Int := 10

def defaultShutdownTimeout : Int := 0

/-- The `config` struct (daemon.go:25-34), restricted to the fields the
options can set; the logger and logging hooks carry no observable state
here. -/
structure Config : Type where
  signalsNotify : List Int
  maxSignalCount : Int
  fatalErrorsChannelBufferSize : Int
  shutdownTimeout : Int
deriving DecidableEq

/-- The defaults installed by `Start` before options run (daemon.go:66-75). -/
def defaultConfig : Config :=
  { signalsNotify := defaultSignals,
    maxSignalCount := defaultMaxSignalCount,
    fatalErrorsChannelBufferSize := defaultFatalErrorsChannelBufferSize,
    shutdownTimeout := defaultShutdownTimeout }

/-- The recognized `DaemonConfigOption`s (daemon.go:199-236). -/
inductive DaemonConfigOption : Type
| WithSignalsNotify (sigs : List Int) : DaemonConfigOption
| WithMaxSignalCount (n : Int) : DaemonConfigOption
| WithFatalErrorsChannelBufferSize (n : Int) : DaemonConfigOption
| WithShutdownGraceDuration (d : Int) : DaemonConfigOption
| WithLogger : DaemonConfigOption
deriving DecidableEq

/-- Applying one option function to the configuration value. -/
def applyOpt (c : Config) : DaemonConfigOption → Config
| DaemonConfigOption.WithSignalsNotify sigs => { c with signalsNotify := sigs }
| DaemonConfigOption.WithMaxSignalCount n => { c with maxSignalCount := n }
| DaemonConfigOption.WithFatalErrorsChannelBufferSize n =>
    { c with fatalErrorsChannelBufferSize := n }
| DaemonConfigOption.WithShutdownGraceDuration d => { c with shutdownTimeout := d }
| DaemonConfigOption.WithLogger => c

/-- The ordered option fold of `Start` (daemon.go:77-79). -/
def buildConfig (opts : List DaemonConfigOption) : Config :=
  opts.foldl applyOpt defaultConfig

/-- A Go channel, observable through its buffer capacity. -/
structure GoChan : Type where
  capacity : Int
deriving DecidableEq

/-- `make(chan T, n)`: a negative capacity is a runtime panic, embedded as
an error. -/
def makeChan (n : Int) : Except String GoChan :=
  if n < 0 then Except.error "makechan: size out of range" else Except.ok ⟨n⟩

/-- The `Daemon` value as `Start` returns it (daemon.go:85-96): the folded
configuration, the derived cancelable context (canceled initially only if
its parent already is), the two channels, the unclosed `done` channel and
the unfired latch. -/
structure Daemon : Type where
  config : Config
  parentCanceled : Bool
  ctxCanceled : Bool
  signalCh : GoChan
  fatalErrorsCh : GoChan
  doneClosed : Bool
  shutDownLatch : Bool
deriving DecidableEq

/-- Embedding of `Start` (daemon.go:65-101): build the configuration from
the defaults and the option list, create the signal channel with capacity
`maxSignalCount` and the fatal-error channel with capacity
`fatalErrorsChannelBufferSize` (each a potential runtime panic for a
negative capacity), derive the cancelable context from the parent, and
return the daemon with `done` unclosed and the latch unfired. -/
def Start (parentCanceled : Bool) (opts : List DaemonConfigOption) :
    Except String Daemon :=
  let cnf := buildConfig opts
  match makeChan cnf.maxSignalCount with
  | Except.error e => Except.error e
  | Except.ok sch =>
    match makeChan cnf.fatalErrorsChannelBufferSize with
    | Except.error e => Except.error e
    | Except.ok fch =>
      Except.ok { config := cnf, parentCanceled := parentCanceled,
                  ctxCanceled := parentCanceled, signalCh := sch,
                  fatalErrorsCh := fch, doneClosed := false,
                  shutDownLatch := false }

/-- Claim C8 counterexample: `Start` does not tolerate every integer option
value — configuring a negative max signal count makes
`make(chan os.Signal, cnf.maxSignalCount)` panic at runtime during
construction, so `Start(ctx, WithMaxSignalCount(-1))` does not return a
usable daemon. -/
theorem Start_negative_count_counterexample :
    Start false [DaemonConfigOption.WithMaxSignalCount (-1)]
      = Except.error "makechan: size out of range" := by
  rfl

/-- Claim C8 as amended: for every parent context and every list of
configuration options whose effective max signal count and fatal-error
buffer size are non-negative (zero keeping its documented
disabled/unbounded meaning, and durations unrestricted), `Start` returns a
usable daemon and never fails: the configuration is exactly the option
fold over the defaults, the channels have the configured capacities, the
completion channel is unclosed and the one-shot latch unfired.  (Negative
values for either channel capacity panic in channel construction, see the
counterexample.) -/
theorem Start_never_fails (pc : Bool) (opts : List DaemonConfigOption)
    (h1 : 0 ≤ (buildConfig opts).maxSignalCount)
    (h2 : 0 ≤ (buildConfig opts).fatalErrorsChannelBufferSize) :
    Start pc opts = Except.ok
      { config := buildConfig opts, parentCanceled := pc, ctxCanceled := pc,
        signalCh := ⟨(buildConfig opts).maxSignalCount⟩,
        fatalErrorsCh := ⟨(buildConfig opts).fatalErrorsChannelBufferSize⟩,
        doneClosed := false, shutDownLatch := false } := by
  have hm : makeChan (buildConfig opts).maxSignalCount
      = Except.ok ⟨(buildConfig opts).maxSignalCount⟩ := by
    unfold makeChan
    rw [if_neg (by omega)]
  have hf : makeChan (buildConfig opts).fatalErrorsChannelBufferSize
      = Except.ok ⟨(buildConfig opts).fatalErrorsChannelBufferSize⟩ := by
    unfold makeChan
    rw [if_neg (by omega)]
  unfold Start
  simp only [hm, hf]

/-- Claim C8 witness: a concrete option list with zero-valued counters and
duration (the documented disabled/unbounded settings) yields a usable
daemon. -/
theorem Start_never_fails_witness :
    Start false [DaemonConfigOption.WithShutdownGraceDuration 0,
                 DaemonConfigOption.WithMaxSignalCount 0]
      = Except.ok
        { config := buildConfig [DaemonConfigOption.WithShutdownGraceDuration 0,
                                 DaemonConfigOption.WithMaxSignalCount 0],
          parentCanceled := false, ctxCanceled := false,
          signalCh := ⟨(buildConfig [DaemonConfigOption.WithShutdownGraceDuration 0,
                                     DaemonConfigOption.WithMaxSignalCount 0]).maxSignalCount⟩,
          fatalErrorsCh := ⟨(buildConfig [DaemonConfigOption.WithShutdownGraceDuration 0,
                                          DaemonConfigOption.WithMaxSignalCount 0]).fatalErrorsChannelBufferSize⟩,
          doneClosed := false, shutDownLatch := false } :=
  Start_never_fails false
    [DaemonConfigOption.WithShutdownGraceDuration 0,
     DaemonConfigOption.WithMaxSignalCount 0]
    (by decide) (by decide)

end GoDaemon
